import Mathlib

/-!
Verification of the Game of Life application in src/src/main.rs.

The embedding follows the source: the cell matrix `[[Cell; SIZE]; SIZE]` is a
list of rows with the well-formedness predicate `WF` recording the static
32×32 shape that Rust's array type guarantees; reads and writes through
`getCell`/`setCell` have checked variants returning `Option` in which `none`
models an index-out-of-bounds panic.  `Grid::tick` is embedded as a left fold
over the row-major iteration order of its second loop, mutating the cell list
in place exactly as the Rust loop does, with the neighbor-count buffer
`tickBuf` computed from the pre-tick cells as in the first loop.  The iced
canvas geometry (`Rectangle`, `Point`, f32 arithmetic) is embedded over ℚ.
The application's render cache and the widget states are rendering-only and
are not part of the model.
-/

set_option maxRecDepth 10000

def SIZE : Nat := 32

def MILLISEC : Nat := 1000

inductive Cell
  | Unpopulated
  | Populated
deriving DecidableEq, Repr

/-- The cell matrix `[[Cell; SIZE]; SIZE]`, as a list of rows. -/
abbrev Cells := List (List Cell)

/-- The 32×32 shape that Rust's static array type guarantees. -/
def WF (cells : Cells) : Prop :=
  cells.length = SIZE ∧ ∀ row ∈ cells, row.length = SIZE

instance (cells : Cells) : Decidable (WF cells) := by
  unfold WF; infer_instance

/-- The read `self.cells[i][j]`; `none` models the out-of-bounds panic. -/
def getCell (cells : Cells) (i j : Nat) : Option Cell :=
  (cells[i]?).bind fun row => row[j]?

/-- The write `self.cells[i][j] = c`; out of bounds it leaves the list
unchanged (the panic is modeled by `setCellChecked`). -/
def setCell (cells : Cells) (i j : Nat) (c : Cell) : Cells :=
  match cells[i]? with
  | some row => cells.set i (row.set j c)
  | none => cells

/-- Panic-sensitive variant of `setCell`: `none` models the panic on an
out-of-bounds `self.cells[i][j] = c`. -/
def setCellChecked (cells : Cells) (i j : Nat) (c : Cell) : Option Cells :=
  match cells[i]? with
  | some row =>
    match row[j]? with
    | some _ => some (cells.set i (row.set j c))
    | none => none
  | none => none

/-- Rust's inclusive range `a..=b` as a list. -/
def rangeIncl (a b : Nat) : List Nat :=
  List.range' a (b + 1 - a)

/-- `Grid::populated_neighbors`: rows `row.saturating_sub(1)..=row + 1`
(Nat subtraction saturates), columns likewise, cartesian product filtered by
`is_inside_bounds && is_neighbor && is_populated`, then counted. -/
def populated_neighbors (cells : Cells) (row col : Nat) : Nat :=
  (((rangeIncl (row - 1) (row + 1)) ×ˢ (rangeIncl (col - 1) (col + 1))).filter
    (fun p => decide (p.1 < SIZE) && decide (p.2 < SIZE)
        && (p.1 != row || p.2 != col)
        && (getCell cells p.1 p.2 == some Cell.Populated))).length

/-- Panic-sensitive variant of `populated_neighbors`: the Rust filter closure
short-circuits, so `self.cells[i][j]` is read only after the bounds test; a
read that would panic makes the whole computation `none`. -/
def populatedNeighborsChecked (cells : Cells) (row col : Nat) : Option Nat :=
  (((rangeIncl (row - 1) (row + 1)) ×ˢ (rangeIncl (col - 1) (col + 1)))).foldlM
    (fun n p =>
      if decide (p.1 < SIZE) && decide (p.2 < SIZE) && (p.1 != row || p.2 != col) then
        match getCell cells p.1 p.2 with
        | some c => some (if c == Cell.Populated then n + 1 else n)
        | none => none
      else some n)
    0

/-- The neighbor-count buffer `[[usize; SIZE]; SIZE]` filled by the first
loop of `Grid::tick`, from the pre-tick cells. -/
def tickBuf (cells : Cells) : List (List Nat) :=
  (List.range SIZE).map fun i => (List.range SIZE).map fun j => populated_neighbors cells i j

/-- Row-major iteration order of the second loop of `Grid::tick`. -/
def tickPositions : List (Nat × Nat) :=
  (List.range SIZE) ×ˢ (List.range SIZE)

/-- `Grid::tick`: the second loop, an in-place update of each cell in row-major
order; `amount` comes from the precomputed buffer, `is_populated` reads the
cell list as it is at that point of the loop (only position `p` itself, not
yet overwritten). -/
def tick (cells : Cells) : Cells :=
  tickPositions.foldl
    (fun acc p =>
      let amount := ((tickBuf cells)[p.1]?.getD [])[p.2]?.getD 0
      let is_populated := getCell acc p.1 p.2 == some Cell.Populated
      setCell acc p.1 p.2
        (if amount == 2 && is_populated then Cell.Populated
         else if amount == 3 then Cell.Populated
         else Cell.Unpopulated))
    cells

/-- Panic-sensitive variant of `Grid::tick`'s second loop: each iteration
reads and then writes `self.cells[i][j]`, either of which would panic out of
bounds. -/
def tickChecked (cells : Cells) : Option Cells :=
  tickPositions.foldlM
    (fun acc p =>
      let amount := ((tickBuf cells)[p.1]?.getD [])[p.2]?.getD 0
      match getCell acc p.1 p.2 with
      | some c =>
          setCellChecked acc p.1 p.2
            (if amount == 2 && (c == Cell.Populated) then Cell.Populated
             else if amount == 3 then Cell.Populated
             else Cell.Unpopulated)
      | none => none)
    cells

structure Grid where
  cells : Cells
  mouse_pressed : Bool
deriving DecidableEq

/-- `#[derive(Default)]` for `Grid`: every cell `Cell::default()`
(= Unpopulated), `mouse_pressed` false.  The render cache is not modeled. -/
def Grid.default : Grid :=
  { cells := List.replicate SIZE (List.replicate SIZE Cell.Unpopulated)
    mouse_pressed := false }

inductive GridMessage
  | Populate (i j : Nat)
deriving DecidableEq

/-- `Grid::update` (`Message::Populate`): `self.cells[i][j] = Cell::Populated`
(plus a render-cache clear, not modeled). -/
def gridUpdate (g : Grid) (m : GridMessage) : Grid :=
  match m with
  | .Populate i j => { g with cells := setCell g.cells i j Cell.Populated }

structure GameOfLife where
  grid : Grid
  is_playing : Bool
  speed : Nat
  next_speed : Option Nat
deriving DecidableEq

/-- `GameOfLife::new`: `Self { speed: 5, ..Default::default() }`. -/
def GameOfLife.new : GameOfLife :=
  { grid := Grid.default, is_playing := false, speed := 5, next_speed := none }

inductive Message
  | GridMsg (m : GridMessage)
  | Tick
  | Toggle
  | Next
  | Clear
  | SpeedChanged (speed : ℚ)

/-- Models `speed.round() as u64`: the f32 slider value is embedded as a
rational; `f32::round` rounds half away from zero, which agrees with `round`
on the nonnegative slider range, and `as u64` saturates negatives to 0. -/
def roundToNat (q : ℚ) : Nat := (round q).toNat

/-- `GameOfLife::update`. -/
def appUpdate (s : GameOfLife) (m : Message) : GameOfLife :=
  match m with
  | .GridMsg gm => { s with grid := gridUpdate s.grid gm }
  | .Tick | .Next =>
      let s1 := { s with grid := { s.grid with cells := tick s.grid.cells } }
      match s1.next_speed with
      | some sp => { s1 with speed := sp, next_speed := none }
      | none => s1
  | .Toggle => { s with is_playing := !s.is_playing }
  | .Clear => { s with grid := Grid.default }
  | .SpeedChanged q =>
      if s.is_playing then { s with next_speed := some (roundToNat q) }
      else { s with speed := roundToNat q }

/-- `GameOfLife::subscription`: `some` of the timer period in milliseconds
when playing (`MILLISEC / self.speed`, u64 division), `none` for
`Subscription::none()`. -/
def subscription (s : GameOfLife) : Option Nat :=
  if s.is_playing then some (MILLISEC / s.speed) else none

/-- Modelled from the spec: the `Timer` subscription recipe lives in
`src/time.rs`, which is not under src/.  The spec says the scheduler "emits
one tick event per period while active"; we model the emission stream by the
number of ticks delivered within the first `t` milliseconds of a run, one at
the end of each full period. -/
def timerTicksBy (period t : Nat) : Nat := t / period

structure Point where
  x : ℚ
  y : ℚ
deriving DecidableEq

structure CanvasSize where
  width : ℚ
  height : ℚ
deriving DecidableEq

/-- iced `Rectangle`, with f32 coordinates embedded as ℚ. -/
structure Rect where
  x : ℚ
  y : ℚ
  width : ℚ
  height : ℚ
deriving DecidableEq

/-- iced `Rectangle::contains` (half-open on the far edges). -/
def Rect.contains (r : Rect) (p : Point) : Bool :=
  decide (r.x ≤ p.x) && decide (p.x < r.x + r.width)
    && decide (r.y ≤ p.y) && decide (p.y < r.y + r.height)

def Rect.size (r : Rect) : CanvasSize := ⟨r.width, r.height⟩

/-- `Grid::region` (the `&self` parameter is unused in the source). -/
def region (size : CanvasSize) : Rect :=
  let side := min size.width size.height
  { x := (size.width - side) / 2
    y := (size.height - side) / 2
    width := side
    height := side }

/-- `Grid::cell_at`.  `.ceil() as usize` becomes `Int.toNat ∘ Int.ceil`
(the unsigned cast saturates below zero); `saturating_sub(1)` is Nat
subtraction. -/
def cell_at (r : Rect) (position : Point) : Option (Nat × Nat) :=
  if r.contains position then
    let cell_size := r.width / (SIZE : ℚ)
    let i := (⌈(position.y - r.y) / cell_size⌉).toNat
    let j := (⌈(position.x - r.x) / cell_size⌉).toNat
    some (i - 1, j - 1)
  else none

/-- iced `Cursor`: an available position or none. -/
structure Cursor where
  pos : Option Point

/-- iced `Cursor::position_in`: the cursor position relative to `bounds`
when the cursor is over `bounds`. -/
def Cursor.position_in (c : Cursor) (bounds : Rect) : Option Point :=
  match c.pos with
  | some p => if bounds.contains p then some ⟨p.x - bounds.x, p.y - bounds.y⟩ else none
  | none => none

/-- The mouse/canvas events distinguished by `canvas::Program::update`. -/
inductive CanvasEvent
  | ButtonPressedLeft
  | ButtonReleasedLeft
  | CursorMoved
  | OtherEvent

inductive EventStatus
  | Captured
  | Ignored
deriving DecidableEq

/-- `canvas::Program::update` for `Grid`: returns the updated grid state
(`self` is mutated through `&mut self`), the event status and the optional
emitted message. -/
def canvasUpdate (g : Grid) (event : CanvasEvent) (bounds : Rect) (cursor : Cursor) :
    Grid × EventStatus × Option GridMessage :=
  let g1 :=
    match event with
    | .ButtonPressedLeft => { g with mouse_pressed := true }
    | .ButtonReleasedLeft => { g with mouse_pressed := false }
    | _ => g
  let reg := region bounds.size
  match cursor.position_in bounds with
  | none => (g1, .Ignored, none)
  | some cursor_position =>
    match cell_at reg cursor_position with
    | none => (g1, .Ignored, none)
    | some (i, j) =>
      let populate :=
        if getCell g1.cells i j != some Cell.Populated then some (GridMessage.Populate i j)
        else none
      match event with
      | .ButtonPressedLeft =>
          if g1.mouse_pressed then (g1, .Captured, populate) else (g1, .Ignored, none)
      | .CursorMoved =>
          if g1.mouse_pressed then (g1, .Captured, populate) else (g1, .Ignored, none)
      | _ => (g1, .Ignored, none)

/-- Written from the spec's words (for C2): the 8 orthogonal/diagonal
neighbor offsets applied to (row, col); positions outside `[0,SIZE)` are
excluded rather than wrapped. -/
def specNeighbors (row col : Nat) : List (Nat × Nat) :=
  ([(-1, -1), (-1, 0), (-1, 1), (0, -1), (0, 1), (1, -1), (1, 0), (1, 1)] :
      List (Int × Int)).filterMap fun d =>
    let i : Int := (row : Int) + d.1
    let j : Int := (col : Int) + d.2
    if 0 ≤ i ∧ i < (SIZE : Int) ∧ 0 ≤ j ∧ j < (SIZE : Int) then some (i.toNat, j.toNat)
    else none

/-! ### Basic lemmas about the cell matrix -/

theorem list_set_of_getElem? {α : Type} :
    ∀ (l : List α) (n : Nat) (a : α), l[n]? = some a → l.set n a = l := by
  intro l
  induction l with
  | nil => intro n a h; simp at h
  | cons x xs ih =>
    intro n a h
    cases n with
    | zero => simp_all
    | succ m =>
      simp only [List.getElem?_cons_succ] at h
      simp [List.set, ih m a h]

theorem WF_row {cells : Cells} (h : WF cells) {i : Nat} (hi : i < SIZE) :
    ∃ row, cells[i]? = some row ∧ row.length = SIZE := by
  have hlen : i < cells.length := by rw [h.1]; exact hi
  exact ⟨cells[i], List.getElem?_eq_getElem hlen, h.2 _ (List.getElem_mem hlen)⟩

theorem getCell_eq_some {cells : Cells} (h : WF cells) {i j : Nat}
    (hi : i < SIZE) (hj : j < SIZE) : ∃ c, getCell cells i j = some c := by
  obtain ⟨row, hrow, hlen⟩ := WF_row h hi
  have hj' : j < row.length := by rw [hlen]; exact hj
  exact ⟨row[j], by simp [getCell, hrow, List.getElem?_eq_getElem hj']⟩

theorem getCell_setCell_ne (cells : Cells) (i j i' j' : Nat) (c : Cell)
    (h : ¬(i' = i ∧ j' = j)) :
    getCell (setCell cells i j c) i' j' = getCell cells i' j' := by
  unfold setCell
  cases hrow : cells[i]? with
  | none => rfl
  | some row =>
    unfold getCell
    by_cases hii : i' = i
    · subst hii
      have hjj : j' ≠ j := fun hjj => h ⟨rfl, hjj⟩
      have hlen : i' < cells.length := (List.getElem?_eq_some_iff.mp hrow).1
      rw [List.getElem?_set_self hlen, hrow]
      simp [List.getElem?_set_ne (Ne.symm hjj)]
    · rw [List.getElem?_set_ne (Ne.symm hii)]

theorem getCell_setCell_self {cells : Cells} (h : WF cells) {i j : Nat}
    (hi : i < SIZE) (hj : j < SIZE) (c : Cell) :
    getCell (setCell cells i j c) i j = some c := by
  obtain ⟨row, hrow, hlen⟩ := WF_row h hi
  have hilen : i < cells.length := (List.getElem?_eq_some_iff.mp hrow).1
  have hjlen : j < row.length := by rw [hlen]; exact hj
  unfold setCell
  rw [hrow]
  unfold getCell
  rw [List.getElem?_set_self hilen]
  simp only [Option.some_bind]
  exact List.getElem?_set_self hjlen

theorem WF_setCell {cells : Cells} (h : WF cells) (i j : Nat) (c : Cell) :
    WF (setCell cells i j c) := by
  unfold setCell
  cases hrow : cells[i]? with
  | none => exact h
  | some row =>
    constructor
    · rw [List.length_set]; exact h.1
    · intro r hr
      rcases List.mem_or_eq_of_mem_set hr with hmem | rfl
      · exact h.2 r hmem
      · rw [List.length_set]
        exact h.2 row (List.getElem?_mem hrow)

/-! ### The in-place second loop of Grid::tick reads only the snapshot -/

theorem tickPositions_nodup : tickPositions.Nodup :=
  List.Nodup.product (List.nodup_range SIZE) (List.nodup_range SIZE)

theorem mem_tickPositions {p : Nat × Nat} :
    p ∈ tickPositions ↔ p.1 < SIZE ∧ p.2 < SIZE := by
  obtain ⟨i, j⟩ := p
  simp [tickPositions, List.mem_product, List.mem_range]

theorem foldl_setCell_frame (f : Nat → Nat → Option Cell → Cell) :
    ∀ (l : List (Nat × Nat)) (acc : Cells) (q : Nat × Nat), (∀ p ∈ l, p ≠ q) →
      getCell (l.foldl
          (fun acc p => setCell acc p.1 p.2 (f p.1 p.2 (getCell acc p.1 p.2))) acc) q.1 q.2
        = getCell acc q.1 q.2 := by
  intro l
  induction l with
  | nil => intro acc q _; rfl
  | cons p rest ih =>
    intro acc q hq
    rw [List.foldl_cons]
    rw [ih _ q (fun r hr => hq r (List.mem_cons_of_mem p hr))]
    apply getCell_setCell_ne
    intro ⟨h1, h2⟩
    exact hq p (List.mem_cons_self p rest) (Prod.ext_iff.mpr ⟨h1, h2⟩).symm

theorem foldl_setCell_spec (f : Nat → Nat → Option Cell → Cell) :
    ∀ (l : List (Nat × Nat)) (acc : Cells), WF acc → l.Nodup →
      (∀ p ∈ l, p.1 < SIZE ∧ p.2 < SIZE) →
      ∀ q ∈ l,
        getCell (l.foldl
            (fun acc p => setCell acc p.1 p.2 (f p.1 p.2 (getCell acc p.1 p.2))) acc) q.1 q.2
          = some (f q.1 q.2 (getCell acc q.1 q.2)) := by
  intro l
  induction l with
  | nil => intro acc _ _ _ q hq; simp at hq
  | cons p rest ih =>
    intro acc hwf hnodup hbounds q hq
    have hnodup' := List.nodup_cons.mp hnodup
    rw [List.foldl_cons]
    rcases List.mem_cons.mp hq with rfl | hqrest
    · rw [foldl_setCell_frame f rest _ q (fun r hr hrq => hnodup'.1 (hrq ▸ hr))]
      exact getCell_setCell_self hwf (hbounds q hq).1 (hbounds q hq).2 _
    · have hq_ne_p : q ≠ p := fun h => hnodup'.1 (h ▸ hqrest)
      rw [ih _ (WF_setCell hwf _ _ _) hnodup'.2
            (fun r hr => hbounds r (List.mem_cons_of_mem p hr)) q hqrest]
      rw [getCell_setCell_ne _ _ _ _ _ _
            (fun ⟨h1, h2⟩ => hq_ne_p (Prod.ext_iff.mpr ⟨h1, h2⟩))]

theorem tickBuf_get {cells : Cells} {i j : Nat} (hi : i < SIZE) (hj : j < SIZE) :
    ((tickBuf cells)[i]?.getD [])[j]?.getD 0 = populated_neighbors cells i j := by
  unfold tickBuf
  rw [List.getElem?_map, List.getElem?_range hi]
  simp [List.getElem?_map, List.getElem?_range hj]

/-- Claim C1: one call to `Grid::tick` replaces every cell with the value of
the Conway rule evaluated on the pre-call snapshot: a cell is Populated
afterwards iff it was Populated with exactly 2 or 3 Populated neighbors, or
Unpopulated with exactly 3 Populated neighbors; all other cells are
Unpopulated afterwards.  All neighbor counts on the right-hand side are taken
from the pre-call `cells`, never from partially updated cells. -/
theorem tick_applies_conway_rule (cells : Cells) (hwf : WF cells)
    (i j : Nat) (hi : i < SIZE) (hj : j < SIZE) :
    getCell (tick cells) i j =
      some (if (getCell cells i j = some Cell.Populated ∧
                 (populated_neighbors cells i j = 2 ∨ populated_neighbors cells i j = 3)) ∨
               (getCell cells i j = some Cell.Unpopulated ∧ populated_neighbors cells i j = 3)
            then Cell.Populated else Cell.Unpopulated) := by
  have hb : ∀ p ∈ tickPositions, p.1 < SIZE ∧ p.2 < SIZE :=
    fun p hp => mem_tickPositions.mp hp
  have hmem : (⟨i, j⟩ : Nat × Nat) ∈ tickPositions := mem_tickPositions.mpr ⟨hi, hj⟩
  have h : getCell (tick cells) i j =
      some (if ((tickBuf cells)[i]?.getD [])[j]?.getD 0 == 2
                && (getCell cells i j == some Cell.Populated) then Cell.Populated
            else if ((tickBuf cells)[i]?.getD [])[j]?.getD 0 == 3 then Cell.Populated
            else Cell.Unpopulated) :=
    foldl_setCell_spec
      (fun a b oc =>
        if ((tickBuf cells)[a]?.getD [])[b]?.getD 0 == 2 && (oc == some Cell.Populated) then
          Cell.Populated
        else if ((tickBuf cells)[a]?.getD [])[b]?.getD 0 == 3 then Cell.Populated
        else Cell.Unpopulated)
      tickPositions cells hwf tickPositions_nodup hb ⟨i, j⟩ hmem
  rw [h, tickBuf_get hi hj]
  obtain ⟨c, hc⟩ := getCell_eq_some hwf hi hj
  rw [hc]
  by_cases h2 : populated_neighbors cells i j = 2 <;>
    by_cases h3 : populated_neighbors cells i j = 3 <;>
      cases c <;> simp [h2, h3]

/-- Witness for C1: the default all-Unpopulated grid at cell (0, 0). -/
theorem tick_applies_conway_rule_witness :
    WF Grid.default.cells ∧ 0 < SIZE ∧
      getCell (tick Grid.default.cells) 0 0 =
        some (if (getCell Grid.default.cells 0 0 = some Cell.Populated ∧
                   (populated_neighbors Grid.default.cells 0 0 = 2 ∨
                    populated_neighbors Grid.default.cells 0 0 = 3)) ∨
                 (getCell Grid.default.cells 0 0 = some Cell.Unpopulated ∧
                  populated_neighbors Grid.default.cells 0 0 = 3)
              then Cell.Populated else Cell.Unpopulated) :=
  ⟨by decide, by decide,
    tick_applies_conway_rule Grid.default.cells (by decide) 0 0 (by decide) (by decide)⟩

/-! ### Neighbor counting (C2) -/

set_option synthInstance.maxSize 1024

theorem filter_candidates_eq_specNeighbors :
    ∀ row < SIZE, ∀ col < SIZE,
      ((rangeIncl (row - 1) (row + 1)) ×ˢ (rangeIncl (col - 1) (col + 1))).filter
        (fun p => decide (p.1 < SIZE) && decide (p.2 < SIZE) && (p.1 != row || p.2 != col))
        = specNeighbors row col := by decide

theorem specNeighbors_card_bounds :
    ∀ row < SIZE, ∀ col < SIZE,
      (specNeighbors row col).length ≤ 8
      ∧ ((row = 0 ∨ row = SIZE - 1) ∧ (col = 0 ∨ col = SIZE - 1) →
          (specNeighbors row col).length ≤ 3)
      ∧ ((((row = 0 ∨ row = SIZE - 1) ∧ 0 < col ∧ col < SIZE - 1) ∨
          ((col = 0 ∨ col = SIZE - 1) ∧ 0 < row ∧ row < SIZE - 1)) →
          (specNeighbors row col).length ≤ 5) := by decide

theorem populated_neighbors_countP_spec (cells : Cells) {row col : Nat}
    (hr : row < SIZE) (hc : col < SIZE) :
    populated_neighbors cells row col
      = (specNeighbors row col).countP
          (fun p => getCell cells p.1 p.2 == some Cell.Populated) := by
  unfold populated_neighbors
  rw [← filter_candidates_eq_specNeighbors row hr col hc,
      List.countP_eq_length_filter, List.filter_filter]
  congr 1
  apply List.filter_congr
  intro p _
  cases hA : decide (p.1 < SIZE) <;> cases hB : decide (p.2 < SIZE) <;>
    cases hC : (p.1 != row || p.2 != col) <;>
      cases hD : (getCell cells p.1 p.2 == some Cell.Populated) <;>
        simp [hA, hB, hC, hD]

/-- Claim C2: for every in-bounds cell, `populated_neighbors` equals the
number of Populated cells among the at-most-8 orthogonal/diagonal neighbors
inside `[0,SIZE)×[0,SIZE)` (excluding the cell itself, out-of-bounds
positions excluded rather than wrapped), hence lies in [0,8]; corner cells
return at most 3 and non-corner edge cells at most 5. -/
theorem populated_neighbors_spec (cells : Cells) (row col : Nat)
    (hr : row < SIZE) (hc : col < SIZE) :
    populated_neighbors cells row col
        = (specNeighbors row col).countP
            (fun p => getCell cells p.1 p.2 == some Cell.Populated)
      ∧ populated_neighbors cells row col ≤ 8
      ∧ ((row = 0 ∨ row = SIZE - 1) ∧ (col = 0 ∨ col = SIZE - 1) →
          populated_neighbors cells row col ≤ 3)
      ∧ ((((row = 0 ∨ row = SIZE - 1) ∧ 0 < col ∧ col < SIZE - 1) ∨
          ((col = 0 ∨ col = SIZE - 1) ∧ 0 < row ∧ row < SIZE - 1)) →
          populated_neighbors cells row col ≤ 5) := by
  have he := populated_neighbors_countP_spec cells hr hc
  obtain ⟨h8, h3, h5⟩ := specNeighbors_card_bounds row hr col hc
  refine ⟨he, ?_, ?_, ?_⟩
  · rw [he]; exact le_trans (List.countP_le_length _) h8
  · intro h; rw [he]; exact le_trans (List.countP_le_length _) (h3 h)
  · intro h; rw [he]; exact le_trans (List.countP_le_length _) (h5 h)

/-- Witness for C2: the default grid at the corner cell (0, 0). -/
theorem populated_neighbors_spec_witness :
    0 < SIZE ∧
      (populated_neighbors Grid.default.cells 0 0
          = (specNeighbors 0 0).countP
              (fun p => getCell Grid.default.cells p.1 p.2 == some Cell.Populated)
        ∧ populated_neighbors Grid.default.cells 0 0 ≤ 8
        ∧ ((0 = 0 ∨ 0 = SIZE - 1) ∧ (0 = 0 ∨ 0 = SIZE - 1) →
            populated_neighbors Grid.default.cells 0 0 ≤ 3)
        ∧ ((((0 = 0 ∨ 0 = SIZE - 1) ∧ 0 < 0 ∧ 0 < SIZE - 1) ∨
            ((0 = 0 ∨ 0 = SIZE - 1) ∧ 0 < 0 ∧ 0 < SIZE - 1)) →
            populated_neighbors Grid.default.cells 0 0 ≤ 5)) :=
  ⟨by decide, populated_neighbors_spec Grid.default.cells 0 0 (by decide) (by decide)⟩

/-! ### Totality of the grid operations (C9) -/

theorem setCellChecked_eq {cells : Cells} (hwf : WF cells) {i j : Nat}
    (hi : i < SIZE) (hj : j < SIZE) (c : Cell) :
    setCellChecked cells i j c = some (setCell cells i j c) := by
  obtain ⟨row, hrow, hlen⟩ := WF_row hwf hi
  have hj' : j < row.length := by rw [hlen]; exact hj
  unfold setCellChecked setCell
  rw [hrow]
  simp [List.getElem?_eq_getElem hj']

theorem populatedNeighborsChecked_go (cells : Cells) (hwf : WF cells) (row col : Nat) :
    ∀ (l : List (Nat × Nat)) (n : Nat),
      l.foldlM
        (fun n p =>
          if decide (p.1 < SIZE) && decide (p.2 < SIZE) && (p.1 != row || p.2 != col) then
            match getCell cells p.1 p.2 with
            | some c => some (if c == Cell.Populated then n + 1 else n)
            | none => none
          else some n)
        n
      = some (n + l.countP
          (fun p => decide (p.1 < SIZE) && decide (p.2 < SIZE) && (p.1 != row || p.2 != col)
              && (getCell cells p.1 p.2 == some Cell.Populated))) := by
  intro l
  induction l with
  | nil => intro n; rfl
  | cons p rest ih =>
    intro n
    rw [List.foldlM_cons]
    simp only [List.countP_cons]
    cases hg : (decide (p.1 < SIZE) && decide (p.2 < SIZE) && (p.1 != row || p.2 != col)) with
    | false =>
      rw [if_neg Bool.false_ne_true]
      show List.foldlM _ n rest = _
      rw [ih n]
      simp [hg]
    | true =>
      have hg' := hg
      rw [Bool.and_eq_true, Bool.and_eq_true] at hg'
      obtain ⟨⟨hA, hB⟩, hC⟩ := hg'
      obtain ⟨c, hc⟩ := getCell_eq_some hwf (of_decide_eq_true hA) (of_decide_eq_true hB)
      rw [if_pos rfl, hc]
      show List.foldlM _ (if (c == Cell.Populated) = true then n + 1 else n) rest = _
      rw [ih]
      cases c with
      | Populated =>
        simp [hg, hc]
        omega
      | Unpopulated =>
        simp [hg, hc]

theorem populatedNeighborsChecked_eq (cells : Cells) (hwf : WF cells) (row col : Nat) :
    populatedNeighborsChecked cells row col = some (populated_neighbors cells row col) := by
  unfold populatedNeighborsChecked
  rw [populatedNeighborsChecked_go cells hwf row col _ 0]
  unfold populated_neighbors
  rw [← List.countP_eq_length_filter]
  rw [Nat.zero_add]

theorem tickChecked_go (cells : Cells) :
    ∀ (l : List (Nat × Nat)) (acc : Cells), WF acc →
      (∀ p ∈ l, p.1 < SIZE ∧ p.2 < SIZE) →
      l.foldlM
        (fun acc p =>
          let amount := ((tickBuf cells)[p.1]?.getD [])[p.2]?.getD 0
          match getCell acc p.1 p.2 with
          | some c =>
              setCellChecked acc p.1 p.2
                (if amount == 2 && (c == Cell.Populated) then Cell.Populated
                 else if amount == 3 then Cell.Populated
                 else Cell.Unpopulated)
          | none => none)
        acc
      = some (l.foldl
          (fun acc p =>
            let amount := ((tickBuf cells)[p.1]?.getD [])[p.2]?.getD 0
            let is_populated := getCell acc p.1 p.2 == some Cell.Populated
            setCell acc p.1 p.2
              (if amount == 2 && is_populated then Cell.Populated
               else if amount == 3 then Cell.Populated
               else Cell.Unpopulated))
          acc) := by
  intro l
  induction l with
  | nil => intro acc _ _; rfl
  | cons p rest ih =>
    intro acc hwf hb
    have hp := hb p (List.mem_cons_self p rest)
    obtain ⟨c, hc⟩ := getCell_eq_some hwf hp.1 hp.2
    rw [List.foldlM_cons, List.foldl_cons]
    simp only [hc]
    rw [setCellChecked_eq hwf hp.1 hp.2]
    show List.foldlM _ (setCell acc p.1 p.2 _) rest = _
    rw [ih (setCell acc p.1 p.2 _) (WF_setCell hwf _ _ _)
          (fun r hr => hb r (List.mem_cons_of_mem p hr))]
    rfl

theorem tickChecked_eq (cells : Cells) (hwf : WF cells) :
    tickChecked cells = some (tick cells) :=
  tickChecked_go cells tickPositions cells hwf (fun p hp => mem_tickPositions.mp hp)

/-- Claim C9: every Grid Engine operation is total.  For a well-formed grid
the panic-sensitive variants of `Grid::tick` and `Grid::populated_neighbors`
never hit an out-of-bounds access (the bounds filter protects every read, for
any `row`, `col` argument), and `set_populated`'s out-of-bounds panic branch
is unreachable under the in-bounds precondition. -/
theorem grid_engine_ops_total (cells : Cells) (hwf : WF cells) (row col i j : Nat)
    (hi : i < SIZE) (hj : j < SIZE) :
    populatedNeighborsChecked cells row col = some (populated_neighbors cells row col)
  ∧ tickChecked cells = some (tick cells)
  ∧ setCellChecked cells i j Cell.Populated = some (setCell cells i j Cell.Populated) :=
  ⟨populatedNeighborsChecked_eq cells hwf row col, tickChecked_eq cells hwf,
    setCellChecked_eq hwf hi hj Cell.Populated⟩

/-- Witness for C9: the default grid, neighbor counting at (40, 2) (even out
of bounds the bounds filter protects the reads), cell write at (3, 4). -/
theorem grid_engine_ops_total_witness :
    WF Grid.default.cells ∧ 3 < SIZE ∧ 4 < SIZE ∧
      (populatedNeighborsChecked Grid.default.cells 40 2
          = some (populated_neighbors Grid.default.cells 40 2)
        ∧ tickChecked Grid.default.cells = some (tick Grid.default.cells)
        ∧ setCellChecked Grid.default.cells 3 4 Cell.Populated
            = some (setCell Grid.default.cells 3 4 Cell.Populated)) :=
  ⟨by decide, by decide, by decide,
    grid_engine_ops_total Grid.default.cells (by decide) 40 2 3 4 (by decide) (by decide)⟩

/-! ### Speed staging, subscription, pending-speed interaction (C3, C4, C10) -/

/-- Claim C3: a speed change received while running is staged as pending and
the active speed is unchanged at that moment; the pending value is consumed
exactly once — the next generation advance, whether a scheduler Tick or a
manual Next, advances the grid, installs the pending value as the active
speed and clears the pending slot (and installs nothing when no value is
pending); a speed change received while not running sets the active speed
immediately. -/
theorem speed_change_staging (s : GameOfLife) (q : ℚ) (sp : Nat) :
    (s.is_playing = true →
      appUpdate s (.SpeedChanged q) = { s with next_speed := some (roundToNat q) })
  ∧ (s.is_playing = false →
      appUpdate s (.SpeedChanged q) = { s with speed := roundToNat q })
  ∧ (s.next_speed = some sp →
      appUpdate s .Tick
          = { s with grid := { s.grid with cells := tick s.grid.cells },
                     speed := sp, next_speed := none }
        ∧ appUpdate s .Next
          = { s with grid := { s.grid with cells := tick s.grid.cells },
                     speed := sp, next_speed := none })
  ∧ (s.next_speed = none →
      appUpdate s .Tick = { s with grid := { s.grid with cells := tick s.grid.cells } }
        ∧ appUpdate s .Next = { s with grid := { s.grid with cells := tick s.grid.cells } }) := by
  refine ⟨?_, ?_, ?_, ?_⟩
  · intro h; simp [appUpdate, h]
  · intro h; simp [appUpdate, h]
  · intro h; constructor <;> simp [appUpdate, h]
  · intro h; constructor <;> simp [appUpdate, h]

/-- Witness for C3: a playing state with pending speed 9 consumes it on Tick. -/
theorem speed_change_staging_witness :
    appUpdate { grid := Grid.default, is_playing := true, speed := 5, next_speed := some 9 }
        Message.Tick
      = { grid := { Grid.default with cells := tick Grid.default.cells },
          is_playing := true, speed := 9, next_speed := none } :=
  ((speed_change_staging
      { grid := Grid.default, is_playing := true, speed := 5, next_speed := some 9 }
      3 9).2.2.1 rfl).1

/-- Claim C4: the tick source is active iff `is_playing` is true — while not
running the subscription is `none` (no ticks), while running it is a timer
whose period is 1000 ms divided by the current active speed, and (timer
emission modelled from the spec) exactly one tick is delivered per period. -/
theorem subscription_iff_playing (s : GameOfLife) (p t : Nat) (hp : 0 < p) :
    (subscription s = none ↔ s.is_playing = false)
  ∧ (s.is_playing = true → subscription s = some (MILLISEC / s.speed))
  ∧ timerTicksBy p (t + p) = timerTicksBy p t + 1 := by
  refine ⟨?_, ?_, Nat.add_div_right t hp⟩
  · cases h : s.is_playing <;> simp [subscription, h]
  · intro h; simp [subscription, h]

/-- Witness for C4: a playing state at speed 5, period 200 ms. -/
theorem subscription_iff_playing_witness :
    0 < 200
  ∧ ((subscription { grid := Grid.default, is_playing := true, speed := 5, next_speed := none }
        = none
      ↔ ({ grid := Grid.default, is_playing := true, speed := 5,
           next_speed := none } : GameOfLife).is_playing = false)
    ∧ (({ grid := Grid.default, is_playing := true, speed := 5,
          next_speed := none } : GameOfLife).is_playing = true →
        subscription { grid := Grid.default, is_playing := true, speed := 5, next_speed := none }
          = some (MILLISEC / 5))
    ∧ timerTicksBy 200 (0 + 200) = timerTicksBy 200 0 + 1) :=
  ⟨by decide,
    subscription_iff_playing
      { grid := Grid.default, is_playing := true, speed := 5, next_speed := none }
      200 0 (by decide)⟩

/-- Claim C10 (implicit): pausing playback does not clear a staged pending
speed.  Staging a speed while running, then toggling off, leaves the pending
value staged; a further speed change while paused writes the active speed
directly but leaves the stale pending value in place; the next generation
advance (Tick or Next) then overwrites the active speed with the stale
pending value and clears it. -/
theorem pending_speed_survives_pause (s : GameOfLife) (q1 q2 : ℚ)
    (hplay : s.is_playing = true) :
    (appUpdate s .Toggle).next_speed = s.next_speed
  ∧ (appUpdate s (.SpeedChanged q1)).next_speed = some (roundToNat q1)
  ∧ (appUpdate s (.SpeedChanged q1)).speed = s.speed
  ∧ (appUpdate (appUpdate s (.SpeedChanged q1)) .Toggle).next_speed = some (roundToNat q1)
  ∧ (appUpdate (appUpdate (appUpdate s (.SpeedChanged q1)) .Toggle)
        (.SpeedChanged q2)).speed = roundToNat q2
  ∧ (appUpdate (appUpdate (appUpdate s (.SpeedChanged q1)) .Toggle)
        (.SpeedChanged q2)).next_speed = some (roundToNat q1)
  ∧ (appUpdate (appUpdate (appUpdate (appUpdate s (.SpeedChanged q1)) .Toggle)
        (.SpeedChanged q2)) .Next).speed = roundToNat q1
  ∧ (appUpdate (appUpdate (appUpdate (appUpdate s (.SpeedChanged q1)) .Toggle)
        (.SpeedChanged q2)) .Next).next_speed = none
  ∧ (appUpdate (appUpdate (appUpdate (appUpdate s (.SpeedChanged q1)) .Toggle)
        (.SpeedChanged q2)) .Tick).speed = roundToNat q1
  ∧ (appUpdate (appUpdate (appUpdate (appUpdate s (.SpeedChanged q1)) .Toggle)
        (.SpeedChanged q2)) .Tick).next_speed = none := by
  cases m : s.next_speed <;> simp [appUpdate, hplay, m]

/-- Witness for C10: starting from the freshly constructed state toggled to
playing, staging 12 then pausing and sliding to 3 still installs 12 on Next. -/
theorem pending_speed_survives_pause_witness :
    (appUpdate (appUpdate (appUpdate (appUpdate
        { grid := Grid.default, is_playing := true, speed := 5, next_speed := none }
        (.SpeedChanged 12)) .Toggle) (.SpeedChanged 3)) .Next).speed = roundToNat 12 :=
  (pending_speed_survives_pause
    { grid := Grid.default, is_playing := true, speed := 5, next_speed := none }
    12 3 rfl).2.2.2.2.2.2.1

/-! ### Pointer protocol (C5) and activation-only editing (C6) -/

/-- Claim C5: a left press inside the grid sets the dragging flag and emits an
activation intent exactly when the hit cell is Unpopulated; a move while the
flag is set hit-tests the position and emits exactly when it lands on an
Unpopulated cell, a move with the flag clear emits nothing; a release clears
the flag unconditionally and emits nothing; any event whose position lies
outside the grid region (or off the canvas) emits nothing and is reported as
unhandled (Ignored). -/
theorem canvas_pointer_protocol (g : Grid) (bounds : Rect) (cursor : Cursor) :
    ((canvasUpdate g .ButtonReleasedLeft bounds cursor).1.mouse_pressed = false
      ∧ (canvasUpdate g .ButtonReleasedLeft bounds cursor).2.2 = none)
  ∧ (g.mouse_pressed = false →
      (canvasUpdate g .CursorMoved bounds cursor).2.2 = none)
  ∧ (∀ pos i j, cursor.position_in bounds = some pos →
      cell_at (region bounds.size) pos = some (i, j) →
      ((canvasUpdate g .ButtonPressedLeft bounds cursor).1.mouse_pressed = true
        ∧ (canvasUpdate g .ButtonPressedLeft bounds cursor).2.2
            = (if getCell g.cells i j != some Cell.Populated
               then some (GridMessage.Populate i j) else none)
        ∧ (g.mouse_pressed = true →
            (canvasUpdate g .CursorMoved bounds cursor).2.2
              = (if getCell g.cells i j != some Cell.Populated
                 then some (GridMessage.Populate i j) else none))))
  ∧ (∀ e, (cursor.position_in bounds = none
        ∨ ∃ pos, cursor.position_in bounds = some pos
            ∧ cell_at (region bounds.size) pos = none) →
      (canvasUpdate g e bounds cursor).2.1 = EventStatus.Ignored
        ∧ (canvasUpdate g e bounds cursor).2.2 = none) := by
  refine ⟨?_, ?_, ?_, ?_⟩
  · cases hpos : cursor.position_in bounds with
    | none => simp [canvasUpdate, hpos]
    | some pos =>
      cases hcell : cell_at (region bounds.size) pos with
      | none => simp [canvasUpdate, hpos, hcell]
      | some ij => obtain ⟨i, j⟩ := ij; simp [canvasUpdate, hpos, hcell]
  · intro hflag
    cases hpos : cursor.position_in bounds with
    | none => simp [canvasUpdate, hpos]
    | some pos =>
      cases hcell : cell_at (region bounds.size) pos with
      | none => simp [canvasUpdate, hpos, hcell]
      | some ij => obtain ⟨i, j⟩ := ij; simp [canvasUpdate, hpos, hcell, hflag]
  · intro pos i j hpos hcell
    refine ⟨by simp [canvasUpdate, hpos, hcell], by simp [canvasUpdate, hpos, hcell], ?_⟩
    intro hflag
    simp [canvasUpdate, hpos, hcell, hflag]
  · intro e hout
    rcases hout with hnone | ⟨pos, hpos, hcell⟩
    · cases e <;> simp [canvasUpdate, hnone]
    · cases e <;> simp [canvasUpdate, hpos, hcell]

/-- Witness for C5: a 32×32 canvas, cursor at (1, 1) hitting cell (0, 0) of
the default grid; a left press captures and emits an activation intent. -/
theorem canvas_pointer_protocol_witness :
    Cursor.position_in ⟨some ⟨1, 1⟩⟩ ⟨0, 0, 32, 32⟩ = some ⟨1, 1⟩
  ∧ cell_at (region (Rect.size ⟨0, 0, 32, 32⟩)) ⟨1, 1⟩ = some (0, 0)
  ∧ ((canvasUpdate Grid.default .ButtonPressedLeft ⟨0, 0, 32, 32⟩
        ⟨some ⟨1, 1⟩⟩).1.mouse_pressed = true
    ∧ (canvasUpdate Grid.default .ButtonPressedLeft ⟨0, 0, 32, 32⟩ ⟨some ⟨1, 1⟩⟩).2.2
        = (if getCell Grid.default.cells 0 0 != some Cell.Populated
           then some (GridMessage.Populate 0 0) else none)
    ∧ (Grid.default.mouse_pressed = true →
        (canvasUpdate Grid.default .CursorMoved ⟨0, 0, 32, 32⟩ ⟨some ⟨1, 1⟩⟩).2.2
          = (if getCell Grid.default.cells 0 0 != some Cell.Populated
             then some (GridMessage.Populate 0 0) else none))) :=
  ⟨by norm_num [Cursor.position_in, Rect.contains],
    by norm_num [cell_at, region, Rect.size, Rect.contains, SIZE],
    (canvas_pointer_protocol Grid.default ⟨0, 0, 32, 32⟩ ⟨some ⟨1, 1⟩⟩).2.2.1
      ⟨1, 1⟩ 0 0 (by norm_num [Cursor.position_in, Rect.contains])
      (by norm_num [cell_at, region, Rect.size, Rect.contains, SIZE])⟩

theorem setCell_noop {cells : Cells} {i j : Nat} {c : Cell}
    (h : getCell cells i j = some c) : setCell cells i j c = cells := by
  unfold getCell at h
  obtain ⟨row, hrow, hcell⟩ := Option.bind_eq_some.mp h
  unfold setCell
  simp only [hrow]
  rw [list_set_of_getElem? row j c hcell, list_set_of_getElem? cells i row hrow]

theorem setCell_same_idem (cells : Cells) (i j : Nat) (c : Cell) :
    setCell (setCell cells i j c) i j c = setCell cells i j c := by
  unfold setCell
  cases hrow : cells[i]? with
  | none => simp only [hrow]
  | some row =>
    have hlen : i < cells.length := (List.getElem?_eq_some_iff.mp hrow).1
    simp only [hrow, List.getElem?_set_self hlen, List.set_set]

theorem getCell_setCell_populated (cells : Cells) (i j a b : Nat)
    (h : getCell cells a b = some Cell.Populated) :
    getCell (setCell cells i j Cell.Populated) a b = some Cell.Populated := by
  by_cases hab : a = i ∧ b = j
  · obtain ⟨rfl, rfl⟩ := hab
    unfold getCell at h
    obtain ⟨row, hrow, hcell⟩ := Option.bind_eq_some.mp h
    have hlen : a < cells.length := (List.getElem?_eq_some_iff.mp hrow).1
    have hjlen : b < row.length := (List.getElem?_eq_some_iff.mp hcell).1
    unfold setCell
    simp only [hrow]
    unfold getCell
    simp only [List.getElem?_set_self hlen, Option.some_bind]
    exact List.getElem?_set_self hjlen
  · rw [getCell_setCell_ne cells i j a b Cell.Populated hab]
    exact h

/-- Claim C6: editing is activation-only and idempotent — `Grid::update`
(`Message::Populate`) leaves the target cell Populated and changes no other
cell; on an already-Populated cell it is a silent no-op on cell state, and
applying it twice equals applying it once; and no grid edit message ever
turns any Populated cell Unpopulated. -/
theorem populate_activation_only (g : Grid) (hwf : WF g.cells)
    (i j : Nat) (hi : i < SIZE) (hj : j < SIZE) :
    getCell (gridUpdate g (.Populate i j)).cells i j = some Cell.Populated
  ∧ (∀ a b, ¬(a = i ∧ b = j) →
      getCell (gridUpdate g (.Populate i j)).cells a b = getCell g.cells a b)
  ∧ (getCell g.cells i j = some Cell.Populated → gridUpdate g (.Populate i j) = g)
  ∧ gridUpdate (gridUpdate g (.Populate i j)) (.Populate i j) = gridUpdate g (.Populate i j)
  ∧ (∀ (m : GridMessage) (a b : Nat), getCell g.cells a b = some Cell.Populated →
      getCell (gridUpdate g m).cells a b = some Cell.Populated) := by
  refine ⟨?_, ?_, ?_, ?_, ?_⟩
  · exact getCell_setCell_self hwf hi hj Cell.Populated
  · intro a b hab
    exact getCell_setCell_ne g.cells i j a b Cell.Populated hab
  · intro h
    simp [gridUpdate, setCell_noop h]
  · simp [gridUpdate, setCell_same_idem]
  · intro m a b h
    cases m with
    | Populate x y => exact getCell_setCell_populated g.cells x y a b h

/-- Witness for C6: populating cell (2, 3) of the default grid. -/
theorem populate_activation_only_witness :
    WF Grid.default.cells ∧
      getCell (gridUpdate Grid.default (.Populate 2 3)).cells 2 3 = some Cell.Populated ∧
      gridUpdate (gridUpdate Grid.default (.Populate 2 3)) (.Populate 2 3)
        = gridUpdate Grid.default (.Populate 2 3) :=
  ⟨by decide,
    (populate_activation_only Grid.default (by decide) 2 3 (by decide) (by decide)).1,
    (populate_activation_only Grid.default (by decide) 2 3 (by decide) (by decide)).2.2.2.1⟩

/-! ### Clear (C7) and construction (C8) -/

/-- Claim C7: the Clear command replaces the grid with the default grid — a
well-formed 32×32 grid with every cell Unpopulated, equal to the grid of a
freshly constructed (non-random — the only constructor) application state. -/
theorem clear_resets_grid (s : GameOfLife) (i j : Nat) (hi : i < SIZE) (hj : j < SIZE) :
    appUpdate s .Clear = { s with grid := Grid.default }
  ∧ (appUpdate s .Clear).grid = GameOfLife.new.grid
  ∧ WF (appUpdate s .Clear).grid.cells
  ∧ getCell (appUpdate s .Clear).grid.cells i j = some Cell.Unpopulated := by
  refine ⟨rfl, rfl, ?_, ?_⟩
  · show WF Grid.default.cells
    decide
  · show getCell Grid.default.cells i j = some Cell.Unpopulated
    simp [Grid.default, getCell, List.getElem?_replicate, hi, hj]

/-- Witness for C7: clearing a running state whose grid has a Populated cell. -/
theorem clear_resets_grid_witness :
    0 < SIZE ∧
      (appUpdate { grid := { cells := setCell Grid.default.cells 2 2 Cell.Populated,
                             mouse_pressed := true },
                   is_playing := true, speed := 7, next_speed := some 3 } .Clear).grid
        = GameOfLife.new.grid
    ∧ getCell (appUpdate { grid := { cells := setCell Grid.default.cells 2 2 Cell.Populated,
                                     mouse_pressed := true },
                           is_playing := true, speed := 7, next_speed := some 3 }
          .Clear).grid.cells 0 0 = some Cell.Unpopulated :=
  ⟨by decide,
    (clear_resets_grid _ 0 0 (by decide) (by decide)).2.1,
    (clear_resets_grid _ 0 0 (by decide) (by decide)).2.2.2⟩

/-- Counterexample for C8 as stated: the program's grid construction takes no
randomness flag and is deterministic — `GameOfLife::new` builds its grid via
`Grid::default()` only, and every cell of the constructed grid is Unpopulated
with certainty, never Populated with probability 1/3. -/
theorem construction_not_randomized :
    GameOfLife.new.grid = Grid.default
  ∧ getCell GameOfLife.new.grid.cells 0 0 = some Cell.Unpopulated
  ∧ GameOfLife.new.grid.cells.all (fun row => row.all (fun c => c == Cell.Unpopulated)) = true :=
  ⟨rfl, by decide, by decide⟩

/-- Claim C8 amended: grid construction takes no randomness flag — the only
constructor path (`GameOfLife::new`, via `Grid::default`) produces the
all-Unpopulated well-formed 32×32 grid, with no failure modes. -/
theorem construction_all_unpopulated (i j : Nat) (hi : i < SIZE) (hj : j < SIZE) :
    GameOfLife.new.grid = Grid.default
  ∧ WF GameOfLife.new.grid.cells
  ∧ getCell GameOfLife.new.grid.cells i j = some Cell.Unpopulated := by
  refine ⟨rfl, by decide, ?_⟩
  show getCell Grid.default.cells i j = some Cell.Unpopulated
  simp [Grid.default, getCell, List.getElem?_replicate, hi, hj]

/-- Witness for C8 (amended) at cell (31, 31). -/
theorem construction_all_unpopulated_witness :
    31 < SIZE ∧ getCell GameOfLife.new.grid.cells 31 31 = some Cell.Unpopulated :=
  ⟨by decide, (construction_all_unpopulated 31 31 (by decide) (by decide)).2.2⟩
